import Mathlib

set_option maxRecDepth 8000

/-!
Verification of the kilominx procedural geometry generator.

The development shallowly embeds the two construction strategies found in the
repository:

* the full subdivided model (module with generateKilominxFaces,
  calculateNeighbors, createKilominxGeometry, getSolvedStateColors,
  validateGeometry), embedded in namespace Full;
* the simple 12-face model (lib/kilominx/geometry.ts), embedded in
  namespace Simple.

Floating-point numbers of the source are modelled as real numbers, so the
numeric facts below are exact where the source is only accurate to tolerance.
-/

namespace KilominxSolver

/-- 3D coordinate record (source: types, Vector3). -/
@[ext]
structure Vector3 where
  x : ℝ
  y : ℝ
  z : ℝ

/-- The 12 distinct colors of the puzzle palette (source: types, FaceColor).
The hex strings of the source are irrelevant to the geometry core and are
represented by the constructor identity. -/
inductive FaceColor where
  | WHITE
  | YELLOW
  | DARK_BLUE
  | LIGHT_BLUE
  | RED
  | PINK
  | ORANGE
  | LIGHT_GREEN
  | DARK_GREEN
  | PURPLE
  | GREY
  | DARK_BROWN
  deriving DecidableEq

/-- A single pentagonal cell (source: types, Face). -/
structure Face where
  id : ℕ
  color : FaceColor
  center : Vector3
  normal : Vector3
  vertices : List Vector3
  neighbors : List ℕ
  majorFace : ℕ
  ring : ℕ
  ringPosition : ℕ

/-- The aggregate geometry (source: types, KilominxGeometry). -/
structure KilominxGeometry where
  faces : List Face
  radius : ℝ
  scale : ℝ

/-- A major-face anchor: center point plus outward normal
(source: the anonymous record returned by generateMajorFaces). -/
structure MajorFace where
  center : Vector3
  normal : Vector3

/-- Source: createVector3. -/
def createVector3 (x y z : ℝ) : Vector3 := ⟨x, y, z⟩

open Classical in
/-- Source: normalizeVector.  The zero-length check of the source
(length === 0) is mirrored literally. -/
noncomputable def normalizeVector (v : Vector3) : Vector3 :=
  let length := Real.sqrt (v.x * v.x + v.y * v.y + v.z * v.z)
  if length = 0 then { x := 0, y := 0, z := 0 }
  else { x := v.x / length, y := v.y / length, z := v.z / length }

/-- Source: scaleVector. -/
noncomputable def scaleVector (v : Vector3) (scale : ℝ) : Vector3 :=
  { x := v.x * scale, y := v.y * scale, z := v.z * scale }

/-- Source: addVectors. -/
noncomputable def addVectors (a b : Vector3) : Vector3 :=
  { x := a.x + b.x, y := a.y + b.y, z := a.z + b.z }

/-- Source: crossProduct. -/
noncomputable def crossProduct (a b : Vector3) : Vector3 :=
  { x := a.y * b.z - a.z * b.y
    y := a.z * b.x - a.x * b.z
    z := a.x * b.y - a.y * b.x }

/-- Specification vocabulary (not a source function): euclidean dot product. -/
noncomputable def dotProduct (a b : Vector3) : ℝ :=
  a.x * b.x + a.y * b.y + a.z * b.z

/-- Specification vocabulary (not a source function): vector difference. -/
noncomputable def subVectors (a b : Vector3) : Vector3 :=
  { x := a.x - b.x, y := a.y - b.y, z := a.z - b.z }

/-- Specification vocabulary: the euclidean length formula the source inlines
in normalizeVector and in the neighbor distance computation. -/
noncomputable def vectorLength (v : Vector3) : ℝ :=
  Real.sqrt (v.x * v.x + v.y * v.y + v.z * v.z)

/-- Placeholder face used only as the default of List.getD in statements. -/
noncomputable def defaultFace : Face :=
  { id := 0, color := FaceColor.WHITE, center := ⟨0, 0, 0⟩, normal := ⟨0, 0, 0⟩,
    vertices := [], neighbors := [], majorFace := 0, ring := 0, ringPosition := 0 }

namespace Full

/-- Golden ratio (source: PHI). -/
noncomputable def PHI : ℝ := (1 + Real.sqrt 5) / 2

/-- Inverse golden ratio (source: PHI_INV). -/
noncomputable def PHI_INV : ℝ := 1 / PHI

/-- Overall scale factor (source: SCALE). -/
noncomputable def SCALE : ℝ := 2.0

/-- Source: generateDodecahedronVertices.  Eight scaled cube corners followed
by twelve golden-ratio axis points; the source keeps only the first 12
entries (slice(0, 12)). -/
noncomputable def generateDodecahedronVertices : List Vector3 :=
  let cubeVertices : List Vector3 :=
    [⟨1, 1, 1⟩, ⟨1, 1, -1⟩, ⟨1, -1, 1⟩, ⟨1, -1, -1⟩,
     ⟨-1, 1, 1⟩, ⟨-1, 1, -1⟩, ⟨-1, -1, 1⟩, ⟨-1, -1, -1⟩]
  let axisVertices : List Vector3 :=
    [⟨0, PHI, PHI_INV⟩, ⟨0, PHI, -PHI_INV⟩, ⟨0, -PHI, PHI_INV⟩, ⟨0, -PHI, -PHI_INV⟩,
     ⟨PHI_INV, 0, PHI⟩, ⟨PHI_INV, 0, -PHI⟩, ⟨-PHI_INV, 0, PHI⟩, ⟨-PHI_INV, 0, -PHI⟩,
     ⟨PHI, PHI_INV, 0⟩, ⟨PHI, -PHI_INV, 0⟩, ⟨-PHI, PHI_INV, 0⟩, ⟨-PHI, -PHI_INV, 0⟩]
  (((cubeVertices ++ axisVertices).map
    (fun v => createVector3 (v.x * SCALE) (v.y * SCALE) (v.z * SCALE))).take 12)

/-- Source: generateMajorFaces. -/
noncomputable def generateMajorFaces : List MajorFace :=
  generateDodecahedronVertices.map (fun center =>
    { center := center, normal := normalizeVector center })

open Classical in
/-- Source: generatePentagonVertices. -/
noncomputable def generatePentagonVertices (center normal : Vector3) (radius : ℝ) :
    List Vector3 :=
  let up := if |normal.y| > 0.9 then createVector3 1 0 0 else createVector3 0 1 0
  let right := normalizeVector (crossProduct up normal)
  let forward := normalizeVector (crossProduct normal right)
  (List.range 5).map (fun (i : ℕ) =>
    let angle := ((i : ℝ) * 2 * Real.pi) / 5
    let x := Real.cos angle * radius
    let y := Real.sin angle * radius
    addVectors center (addVectors (scaleVector right x) (scaleVector forward y)))

open Classical in
/-- Analysis vocabulary: the first in-plane basis vector generatePentagonVertices
derives (normalize (cross up normal) with the fallback reference axis). -/
noncomputable def pentagonBasisRight (normal : Vector3) : Vector3 :=
  normalizeVector (crossProduct
    (if |normal.y| > 0.9 then createVector3 1 0 0 else createVector3 0 1 0) normal)

/-- Analysis vocabulary: the second in-plane basis vector of
generatePentagonVertices. -/
noncomputable def pentagonBasisForward (normal : Vector3) : Vector3 :=
  normalizeVector (crossProduct normal (pentagonBasisRight normal))

/-- Analysis vocabulary: the i-th vertex generatePentagonVertices emits. -/
noncomputable def pentagonPoint (center normal : Vector3) (radius : ℝ) (i : ℕ) :
    Vector3 :=
  addVectors center (addVectors
    (scaleVector (pentagonBasisRight normal)
      (Real.cos (((i : ℝ) * 2 * Real.pi) / 5) * radius))
    (scaleVector (pentagonBasisForward normal)
      (Real.sin (((i : ℝ) * 2 * Real.pi) / 5) * radius)))

/-- Source: the local constant faceRadius = 0.8 of generateKilominxFaces. -/
noncomputable def faceRadius : ℝ := 0.8

/-- The center cell pushed for a major face (source: centerFace literal inside
generateKilominxFaces); idNum is the length of the list at push time. -/
noncomputable def centerCell (mf : MajorFace) (majorIndex idNum : ℕ) : Face :=
  { id := idNum, color := FaceColor.WHITE, center := mf.center, normal := mf.normal,
    vertices := generatePentagonVertices mf.center mf.normal (faceRadius * 0.3),
    neighbors := [], majorFace := majorIndex, ring := 0, ringPosition := 0 }

/-- The i-th inner-ring cell of a major face (source: innerFace literal inside
generateKilominxFaces).  The offset purposely uses only the x/y components of
the angular direction, exactly as the source does. -/
noncomputable def innerCell (mf : MajorFace) (majorIndex idNum i : ℕ) : Face :=
  let angle := ((i : ℝ) * 2 * Real.pi) / 5
  let offset := scaleVector ⟨Real.cos angle, Real.sin angle, 0⟩ (faceRadius * 0.6)
  let faceCenter := addVectors mf.center offset
  { id := idNum, color := FaceColor.WHITE, center := faceCenter, normal := mf.normal,
    vertices := generatePentagonVertices faceCenter mf.normal (faceRadius * 0.25),
    neighbors := [], majorFace := majorIndex, ring := 1, ringPosition := i }

/-- The i-th outer-ring cell of a major face (source: outerFace literal inside
generateKilominxFaces). -/
noncomputable def outerCell (mf : MajorFace) (majorIndex idNum i : ℕ) : Face :=
  let angle := ((i : ℝ) * 2 * Real.pi) / 5
  let offset := scaleVector ⟨Real.cos angle, Real.sin angle, 0⟩ faceRadius
  let faceCenter := addVectors mf.center offset
  { id := idNum, color := FaceColor.WHITE, center := faceCenter, normal := mf.normal,
    vertices := generatePentagonVertices faceCenter mf.normal (faceRadius * 0.2),
    neighbors := [], majorFace := majorIndex, ring := 2, ringPosition := i }

/-- The array push of the source: append one cell built from the current
length (the id the source assigns) and the loop counter. -/
noncomputable def pushCell (mk : ℕ → ℕ → Face) (fs : List Face) (i : ℕ) :
    List Face :=
  fs ++ [mk fs.length i]

/-- One iteration of the forEach over major faces in generateKilominxFaces:
push the center cell, the 5 inner-ring cells, and (for non-corner major
faces, majorIndex >= 8) the 5 outer-ring cells.  Every push assigns
id := faces.length as the source does. -/
noncomputable def addMajorFaceCells (faces : List Face) (mp : ℕ × MajorFace) :
    List Face :=
  let faces1 := faces ++ [centerCell mp.2 mp.1 faces.length]
  let faces2 := (List.range 5).foldl (pushCell (innerCell mp.2 mp.1)) faces1
  if mp.1 < 8 then faces2
  else (List.range 5).foldl (pushCell (outerCell mp.2 mp.1)) faces2

/-- Source: generateKilominxFaces. -/
noncomputable def generateKilominxFaces : List Face :=
  generateMajorFaces.enum.foldl addMajorFaceCells []

/-- The center-to-center distance the source inlines in calculateNeighbors. -/
noncomputable def centerDistance (a b : Face) : ℝ :=
  Real.sqrt ((a.center.x - b.center.x) * (a.center.x - b.center.x) +
    (a.center.y - b.center.y) * (a.center.y - b.center.y) +
    (a.center.z - b.center.z) * (a.center.z - b.center.z))

open Classical in
/-- The neighbor list computed for the face at position index (source: the
inner forEach of calculateNeighbors): every other index whose face center is
strictly closer than the 1.5 threshold. -/
noncomputable def neighborIds (faces : List Face) (index : ℕ) (face : Face) :
    List ℕ :=
  ((faces.enum.filter (fun q =>
    decide (¬ index = q.1 ∧ centerDistance face q.2 < 1.5))).map Prod.fst)

/-- Source: calculateNeighbors. -/
noncomputable def calculateNeighbors (faces : List Face) : List Face :=
  faces.enum.map (fun p => { p.2 with neighbors := neighborIds faces p.1 p.2 })

/-- Source: createKilominxGeometry (full model). -/
noncomputable def createKilominxGeometry : KilominxGeometry :=
  let faces := generateKilominxFaces
  let facesWithNeighbors := calculateNeighbors faces
  { faces := facesWithNeighbors, radius := SCALE, scale := SCALE }

/-- Source: the colorMap local of getSolvedStateColors (full model). -/
def colorMap : List FaceColor :=
  [FaceColor.WHITE, FaceColor.YELLOW, FaceColor.DARK_BLUE, FaceColor.LIGHT_BLUE,
   FaceColor.RED, FaceColor.PINK, FaceColor.ORANGE, FaceColor.LIGHT_GREEN,
   FaceColor.DARK_GREEN, FaceColor.PURPLE, FaceColor.GREY, FaceColor.DARK_BROWN]

/-- Source: getSolvedStateColors (full model): one palette color per face of a
freshly generated geometry, selected by majorFace modulo the palette size.
The always-in-bounds index access of the source is rendered with getD. -/
noncomputable def getSolvedStateColors : List FaceColor :=
  let geometry := createKilominxGeometry
  geometry.faces.map (fun face =>
    colorMap.getD (face.majorFace % colorMap.length) FaceColor.WHITE)

/-- Source: validateGeometry (full model).  The per-face null checks of the
source are identically true in a typed embedding; the face-count check and
the 5-vertex check are mirrored. -/
def validateGeometry (geometry : KilominxGeometry) : Bool :=
  if geometry.faces.length ≠ 62 then false
  else if geometry.faces.all (fun face => face.vertices.length == 5) then true
  else false

/-- Analysis vocabulary: the closed form of the cells one iteration of
addMajorFaceCells appends when the list so far has length base. -/
noncomputable def majorBlock (mf : MajorFace) (majorIndex base : ℕ) : List Face :=
  [centerCell mf majorIndex base]
    ++ (List.range 5).map (fun i => innerCell mf majorIndex (base + 1 + i) i)
    ++ (if majorIndex < 8 then []
        else (List.range 5).map (fun i => outerCell mf majorIndex (base + 6 + i) i))

/-- Analysis vocabulary: the faces emitted for a list of indexed major faces,
ids starting at base. -/
noncomputable def blocksFrom : List (ℕ × MajorFace) → ℕ → List Face
  | [], _ => []
  | mp :: rest, base =>
      majorBlock mp.2 mp.1 base ++
        blocksFrom rest (base + (majorBlock mp.2 mp.1 base).length)

end Full

namespace Simple

/-- Source: createKilominxGeometry of lib/kilominx/geometry.ts — twelve
placeholder faces, id and majorFace running 0..11, everything else constant
and degenerate. -/
noncomputable def createKilominxGeometry : KilominxGeometry :=
  let faces := (List.range 12).map (fun i =>
    { id := i, color := FaceColor.WHITE, center := { x := 0, y := 0, z := 0 },
      normal := { x := 0, y := 1, z := 0 }, vertices := [], neighbors := [],
      majorFace := i, ring := 0, ringPosition := 0 : Face })
  { faces := faces, radius := 2.0, scale := 2.0 }

/-- Source: getSolvedStateColors of lib/kilominx/geometry.ts. -/
def getSolvedStateColors : List FaceColor :=
  [FaceColor.WHITE, FaceColor.YELLOW, FaceColor.DARK_BLUE, FaceColor.LIGHT_BLUE,
   FaceColor.RED, FaceColor.PINK, FaceColor.ORANGE, FaceColor.LIGHT_GREEN,
   FaceColor.DARK_GREEN, FaceColor.PURPLE, FaceColor.GREY, FaceColor.DARK_BROWN]

/-- Source: getDefaultColors of lib/kilominx/geometry.ts. -/
def getDefaultColors : List FaceColor :=
  List.replicate 12 FaceColor.WHITE

/-- Source: validateGeometry of lib/kilominx/geometry.ts. -/
def validateGeometry (geometry : KilominxGeometry) : Bool :=
  geometry.faces.length == 12

end Simple

/-! ### Structural lemmas about the full generator -/

section StructuralLemmas

open Full

theorem generatePentagonVertices_length (c n : Vector3) (r : ℝ) :
    (generatePentagonVertices c n r).length = 5 := by
  unfold generatePentagonVertices
  rw [List.length_map, List.length_range]

theorem centerCell_vertices_length (mf : MajorFace) (mi n : ℕ) :
    (centerCell mf mi n).vertices.length = 5 := by
  simp [centerCell, generatePentagonVertices_length]

theorem innerCell_vertices_length (mf : MajorFace) (mi n i : ℕ) :
    (innerCell mf mi n i).vertices.length = 5 := by
  simp [innerCell, generatePentagonVertices_length]

theorem outerCell_vertices_length (mf : MajorFace) (mi n i : ℕ) :
    (outerCell mf mi n i).vertices.length = 5 := by
  simp [outerCell, generatePentagonVertices_length]

theorem foldl_pushCell (mk : ℕ → ℕ → Face) :
    ∀ (n : ℕ) (l : List Face),
      (List.range n).foldl (pushCell mk) l
        = l ++ (List.range n).map (fun i => mk (l.length + i) i) := by
  intro n
  induction n with
  | zero => intro l; simp
  | succ m ih =>
      intro l
      rw [List.range_succ, List.foldl_append, ih]
      simp only [List.foldl_cons, List.foldl_nil, pushCell, List.map_append,
        List.map_cons, List.map_nil, List.length_append, List.length_map,
        List.length_range, List.append_assoc]

theorem addMajorFaceCells_eq (faces : List Face) (mp : ℕ × MajorFace) :
    addMajorFaceCells faces mp = faces ++ majorBlock mp.2 mp.1 faces.length := by
  have harith : ∀ b : ℕ, b + 1 + 5 = b + 6 := by omega
  unfold addMajorFaceCells majorBlock
  simp only [foldl_pushCell, List.length_append, List.length_cons, List.length_nil,
    List.length_map, List.length_range, Nat.zero_add, harith]
  split_ifs with h
  · simp [List.append_assoc]
  · simp [List.append_assoc, harith]

theorem foldl_addMajorFaceCells (ms : List (ℕ × MajorFace)) :
    ∀ l : List Face, ms.foldl addMajorFaceCells l = l ++ blocksFrom ms l.length := by
  induction ms with
  | nil => intro l; simp [blocksFrom]
  | cons mp rest ih =>
      intro l
      rw [List.foldl_cons, addMajorFaceCells_eq, ih, blocksFrom]
      simp [List.length_append, List.append_assoc]

theorem generateKilominxFaces_eq :
    generateKilominxFaces = blocksFrom generateMajorFaces.enum 0 := by
  rw [generateKilominxFaces, foldl_addMajorFaceCells]
  simp

theorem majorBlock_length (mf : MajorFace) (mi base : ℕ) :
    (majorBlock mf mi base).length = if mi < 8 then 6 else 11 := by
  unfold majorBlock
  split_ifs with h <;> simp

theorem blocksFrom_length (ms : List (ℕ × MajorFace)) :
    ∀ base : ℕ, (blocksFrom ms base).length
      = (ms.map (fun mp => if mp.1 < 8 then 6 else 11)).sum := by
  induction ms with
  | nil => intro base; simp [blocksFrom]
  | cons mp rest ih =>
      intro base
      rw [blocksFrom]
      simp [List.length_append, ih, majorBlock_length]

theorem generateMajorFaces_length : generateMajorFaces.length = 12 := by
  simp [generateMajorFaces, generateDodecahedronVertices]

theorem generateKilominxFaces_length : generateKilominxFaces.length = 92 := by
  rw [generateKilominxFaces_eq, blocksFrom_length]
  have h1 : generateMajorFaces.enum.map (fun mp => if mp.1 < 8 then 6 else 11)
      = (generateMajorFaces.enum.map Prod.fst).map (fun k => if k < 8 then 6 else 11) := by
    rw [List.map_map]; rfl
  rw [h1, List.enum_map_fst, generateMajorFaces_length]
  decide

theorem length_calculateNeighbors (l : List Face) :
    (calculateNeighbors l).length = l.length := by
  simp [calculateNeighbors]

theorem full_faces_length : Full.createKilominxGeometry.faces.length = 92 := by
  show (calculateNeighbors generateKilominxFaces).length = 92
  rw [length_calculateNeighbors, generateKilominxFaces_length]

theorem map_calculateNeighbors {α : Type} (l : List Face) (h : Face → α)
    (hh : ∀ f ns, h { f with neighbors := ns } = h f) :
    (calculateNeighbors l).map h = l.map h := by
  calc (calculateNeighbors l).map h
      = l.enum.map (fun p => h p.2) := by
        simp only [calculateNeighbors, List.map_map]
        congr 1
        funext p
        exact hh p.2 _
    _ = (l.enum.map Prod.snd).map h := by rw [List.map_map]; rfl
    _ = l.map h := by rw [List.enum_map_snd]

theorem countP_calculateNeighbors (l : List Face) (p : Face → Bool)
    (hp : ∀ f ns, p { f with neighbors := ns } = p f) :
    (calculateNeighbors l).countP p = l.countP p := by
  calc (calculateNeighbors l).countP p
      = l.enum.countP (fun q => p q.2) := by
        simp only [calculateNeighbors, List.countP_map]
        congr 1
        funext q
        exact hp q.2 _
    _ = (l.enum.map Prod.snd).countP p := by rw [List.countP_map]; rfl
    _ = l.countP p := by rw [List.enum_map_snd]

end StructuralLemmas

/-! ### Field values of the emitted cells -/

section FieldLemmas

open Full

theorem centerCell_id (mf : MajorFace) (mi n : ℕ) : (centerCell mf mi n).id = n := rfl

theorem innerCell_id (mf : MajorFace) (mi n i : ℕ) : (innerCell mf mi n i).id = n := rfl

theorem outerCell_id (mf : MajorFace) (mi n i : ℕ) : (outerCell mf mi n i).id = n := rfl

theorem majorBlock_map_id (mf : MajorFace) (mi base : ℕ) :
    (majorBlock mf mi base).map Face.id
      = List.range' base ((majorBlock mf mi base).length) := by
  rw [majorBlock_length]
  unfold majorBlock
  have hinner :
      (List.map (fun i => innerCell mf mi (base + 1 + i) i) (List.range 5)).map Face.id
        = List.range' (base + 1) 5 := by
    rw [List.map_map, List.range'_eq_map_range]
    rfl
  have houter :
      (List.map (fun i => outerCell mf mi (base + 6 + i) i) (List.range 5)).map Face.id
        = List.range' (base + 6) 5 := by
    rw [List.map_map, List.range'_eq_map_range]
    rfl
  split_ifs with h
  · rw [List.append_nil, List.map_append, hinner]
    rw [show (6 : ℕ) = 5 + 1 from rfl, List.range'_succ]
    rfl
  · rw [List.map_append, List.map_append, hinner, houter, List.append_assoc]
    rw [show base + 6 = base + 1 + 5 from by omega, List.range'_append_1]
    rw [show (5 + 5 : ℕ) = 10 from rfl, show (11 : ℕ) = 10 + 1 from rfl,
      List.range'_succ]
    rfl

theorem blocksFrom_map_id (ms : List (ℕ × MajorFace)) :
    ∀ base : ℕ, (blocksFrom ms base).map Face.id
      = List.range' base ((blocksFrom ms base).length) := by
  induction ms with
  | nil => intro base; simp [blocksFrom]
  | cons mp rest ih =>
      intro base
      rw [blocksFrom, List.map_append, majorBlock_map_id, ih, List.length_append,
        List.range'_append_1]
      congr 1
      omega

theorem generateKilominxFaces_map_id :
    generateKilominxFaces.map Face.id = List.range 92 := by
  have hl : (blocksFrom generateMajorFaces.enum 0).length = 92 := by
    rw [← generateKilominxFaces_eq]
    exact generateKilominxFaces_length
  rw [generateKilominxFaces_eq, blocksFrom_map_id, hl, List.range_eq_range']

theorem full_faces_map_id :
    Full.createKilominxGeometry.faces.map Face.id = List.range 92 := by
  have hface : Full.createKilominxGeometry.faces
      = calculateNeighbors generateKilominxFaces := rfl
  rw [hface, map_calculateNeighbors _ Face.id (fun f ns => rfl),
    generateKilominxFaces_map_id]

theorem vertices_length_of_mem_blocksFrom :
    ∀ (ms : List (ℕ × MajorFace)) (base : ℕ) (f : Face),
      f ∈ blocksFrom ms base → f.vertices.length = 5 := by
  intro ms
  induction ms with
  | nil =>
      intro base f hf
      simp [blocksFrom] at hf
  | cons mp rest ih =>
      intro base f hf
      rw [blocksFrom] at hf
      rcases List.mem_append.mp hf with h | h
      · unfold majorBlock at h
        rcases List.mem_append.mp h with h1 | h1
        · rcases List.mem_append.mp h1 with h2 | h2
          · rw [List.mem_singleton] at h2
            subst h2
            exact centerCell_vertices_length mp.2 mp.1 base
          · obtain ⟨i, _, rfl⟩ := List.mem_map.mp h2
            exact innerCell_vertices_length mp.2 mp.1 _ i
        · by_cases h8 : mp.1 < 8
          · rw [if_pos h8] at h1
            simp at h1
          · rw [if_neg h8] at h1
            obtain ⟨i, _, rfl⟩ := List.mem_map.mp h1
            exact outerCell_vertices_length mp.2 mp.1 _ i
      · exact ih _ f h

theorem full_faces_vertices_length (f : Face)
    (hf : f ∈ Full.createKilominxGeometry.faces) : f.vertices.length = 5 := by
  have hface : Full.createKilominxGeometry.faces
      = calculateNeighbors generateKilominxFaces := rfl
  rw [hface, calculateNeighbors] at hf
  obtain ⟨p, hp, rfl⟩ := List.mem_map.mp hf
  have hmem : p.2 ∈ generateKilominxFaces := List.snd_mem_of_mem_enum hp
  rw [generateKilominxFaces_eq] at hmem
  exact vertices_length_of_mem_blocksFrom _ _ p.2 hmem

theorem majorBlock_map_pair (mf : MajorFace) (mi base : ℕ) :
    (majorBlock mf mi base).map (fun f => (f.majorFace, f.ring))
      = (mi, 0) :: (List.replicate 5 (mi, 1)
          ++ if mi < 8 then [] else List.replicate 5 (mi, 2)) := by
  unfold majorBlock
  have h1 : ((fun f => (f.majorFace, f.ring))
      ∘ (fun i => innerCell mf mi (base + 1 + i) i)) = fun _ => ((mi : ℕ), (1 : ℕ)) := rfl
  have h2 : ((fun f => (f.majorFace, f.ring))
      ∘ (fun i => outerCell mf mi (base + 6 + i) i)) = fun _ => ((mi : ℕ), (2 : ℕ)) := rfl
  split_ifs with h
  · rw [List.append_nil, List.map_append, List.map_map, h1, List.map_const',
      List.length_range]
    rfl
  · rw [List.map_append, List.map_append, List.map_map, List.map_map, h1, h2,
      List.map_const', List.map_const', List.length_range, List.append_assoc]
    rfl

theorem blocksFrom_map_pair (ms : List (ℕ × MajorFace)) :
    ∀ base : ℕ, (blocksFrom ms base).map (fun f => (f.majorFace, f.ring))
      = (ms.map (fun mp => (mp.1, 0) :: (List.replicate 5 (mp.1, 1)
          ++ if mp.1 < 8 then [] else List.replicate 5 (mp.1, 2)))).flatten := by
  induction ms with
  | nil => intro base; simp [blocksFrom]
  | cons mp rest ih =>
      intro base
      rw [blocksFrom, List.map_append, majorBlock_map_pair, List.map_cons,
        List.flatten_cons, ih]

theorem full_faces_map_pair :
    Full.createKilominxGeometry.faces.map (fun f => (f.majorFace, f.ring))
      = ((List.range 12).map (fun k => ((k, 0) :: (List.replicate 5 (k, 1)
          ++ if k < 8 then [] else List.replicate 5 (k, 2))))).flatten := by
  have hface : Full.createKilominxGeometry.faces
      = calculateNeighbors generateKilominxFaces := rfl
  rw [hface, map_calculateNeighbors _ (fun f => (f.majorFace, f.ring)) (fun f ns => rfl),
    generateKilominxFaces_eq, blocksFrom_map_pair]
  have hmm : generateMajorFaces.enum.map (fun mp => ((mp.1, 0)
        :: (List.replicate 5 (mp.1, 1)
          ++ if mp.1 < 8 then [] else List.replicate 5 (mp.1, 2))))
      = (generateMajorFaces.enum.map Prod.fst).map (fun k => ((k, 0)
          :: (List.replicate 5 (k, 1)
            ++ if k < 8 then [] else List.replicate 5 (k, 2)))) := by
    rw [List.map_map]
    rfl
  rw [hmm, List.enum_map_fst, generateMajorFaces_length]

end FieldLemmas

/-! ### Simple-model lemmas -/

section SimpleLemmas

theorem simple_faces_length : Simple.createKilominxGeometry.faces.length = 12 := by
  simp [Simple.createKilominxGeometry]

end SimpleLemmas

/-! ### Claim theorems -/

/-- C1: the claim states that the full-model createKilominxGeometry returns 62
faces and the simple-model one 12.  Evaluating the code: the full generator in
fact emits 92 faces (8 corner majors with 6 cells each plus 4 non-corner
majors with 11 cells each), contradicting the 62 asserted by its own doc
comment and validator; the simple model does return 12. -/
theorem claim_C1 :
    Full.createKilominxGeometry.faces.length = 92
    ∧ Simple.createKilominxGeometry.faces.length = 12 :=
  ⟨full_faces_length, simple_faces_length⟩

/-- C3: applying the full-model validateGeometry to the output of the
full-model createKilominxGeometry returns false, because the generator
produces 92 faces while the validator requires exactly 62. -/
theorem claim_C3 : Full.validateGeometry Full.createKilominxGeometry = false := by
  unfold Full.validateGeometry
  rw [full_faces_length]
  simp

/-- C4 counterexample: the claim says every face of either model has exactly
5 vertices, but face 0 of the simple-model geometry has an empty vertex
list. -/
theorem claim_C4_counterexample :
    0 < Simple.createKilominxGeometry.faces.length
    ∧ (Simple.createKilominxGeometry.faces.getD 0 defaultFace).vertices.length = 0 := by
  constructor
  · rw [simple_faces_length]; norm_num
  · rfl

/-- C4 amended: every face of the full-model geometry has exactly 5 vertices,
while every face of the simple-model geometry has an empty (0-vertex)
list. -/
theorem claim_C4_amended :
    Full.createKilominxGeometry.faces.map (fun f => f.vertices.length)
        = List.replicate 92 5
    ∧ Simple.createKilominxGeometry.faces.map (fun f => f.vertices.length)
        = List.replicate 12 0 := by
  constructor
  · rw [List.eq_replicate_iff]
    constructor
    · rw [List.length_map, full_faces_length]
    · intro b hb
      obtain ⟨f, hf, rfl⟩ := List.mem_map.mp hb
      exact full_faces_vertices_length f hf
  · simp [Simple.createKilominxGeometry, List.map_map, Function.comp_def]

/-- C7: in both models the face ids are exactly 0, 1, ..., n-1 in list order
(n the number of faces), i.e. ids are assigned contiguously in emission
order with no gaps or duplicates. -/
theorem claim_C7 :
    Full.createKilominxGeometry.faces.map Face.id
        = List.range Full.createKilominxGeometry.faces.length
    ∧ Simple.createKilominxGeometry.faces.map Face.id
        = List.range Simple.createKilominxGeometry.faces.length := by
  constructor
  · rw [full_faces_map_id, full_faces_length]
  · rw [simple_faces_length]
    simp [Simple.createKilominxGeometry, List.map_map, Function.comp_def]

/-- C8: in the full-model geometry, each major-face index m has exactly one
ring-0 face and exactly five ring-1 faces; the first 8 major faces have no
ring-2 face and the remaining 4 have exactly five each. -/
theorem claim_C8 (m : ℕ) (hm : m < 12) :
    Full.createKilominxGeometry.faces.countP
        (fun f => f.majorFace == m && f.ring == 0) = 1
    ∧ Full.createKilominxGeometry.faces.countP
        (fun f => f.majorFace == m && f.ring == 1) = 5
    ∧ Full.createKilominxGeometry.faces.countP
        (fun f => f.majorFace == m && f.ring == 2)
        = (if m < 8 then 0 else 5) := by
  have key : ∀ r : ℕ, Full.createKilominxGeometry.faces.countP
      (fun f => f.majorFace == m && f.ring == r)
      = (((List.range 12).map (fun k => ((k, 0) :: (List.replicate 5 (k, 1)
          ++ if k < 8 then [] else List.replicate 5 (k, 2))))).flatten).countP
        (fun pr => pr.1 == m && pr.2 == r) := by
    intro r
    rw [← full_faces_map_pair, List.countP_map]
    rfl
  refine ⟨?_, ?_, ?_⟩ <;> rw [key] <;> interval_cases m <;> decide

/-- C8 witness: the theorem instantiated at the concrete major face 8 (a
non-corner major face, so it owns five ring-2 cells). -/
theorem claim_C8_witness :
    (8 : ℕ) < 12
    ∧ (Full.createKilominxGeometry.faces.countP
          (fun f => f.majorFace == 8 && f.ring == 0) = 1
      ∧ Full.createKilominxGeometry.faces.countP
          (fun f => f.majorFace == 8 && f.ring == 1) = 5
      ∧ Full.createKilominxGeometry.faces.countP
          (fun f => f.majorFace == 8 && f.ring == 2)
          = (if (8 : ℕ) < 8 then 0 else 5)) :=
  ⟨by decide, claim_C8 8 (by decide)⟩

/-- C2 counterexample: the claim says the full-model getSolvedStateColors
returns exactly 12 colors; it in fact returns one color per generated face,
92 in total. -/
theorem claim_C2_counterexample :
    Full.getSolvedStateColors.length ≠ 12
    ∧ Full.getSolvedStateColors.length = 92 := by
  have h : Full.getSolvedStateColors.length = 92 := by
    simp only [Full.getSolvedStateColors, List.length_map]
    exact full_faces_length
  exact ⟨by rw [h]; norm_num, h⟩

/-- C2 amended: the fixed 12-entry palette is distinct and is exactly what
the simple-model getSolvedStateColors returns, in order; the full-model
getSolvedStateColors returns one palette color per face of the geometry it
generates, 92 values: 6 copies each of palette entries 0..7 (corner major
faces) followed by 11 copies each of palette entries 8..11 (non-corner
major faces), in major-face order. -/
theorem claim_C2_amended :
    Full.colorMap.Nodup
    ∧ Simple.getSolvedStateColors = Full.colorMap
    ∧ Full.getSolvedStateColors
      = List.replicate 6 FaceColor.WHITE ++ (List.replicate 6 FaceColor.YELLOW
        ++ (List.replicate 6 FaceColor.DARK_BLUE ++ (List.replicate 6 FaceColor.LIGHT_BLUE
        ++ (List.replicate 6 FaceColor.RED ++ (List.replicate 6 FaceColor.PINK
        ++ (List.replicate 6 FaceColor.ORANGE ++ (List.replicate 6 FaceColor.LIGHT_GREEN
        ++ (List.replicate 11 FaceColor.DARK_GREEN ++ (List.replicate 11 FaceColor.PURPLE
        ++ (List.replicate 11 FaceColor.GREY
        ++ List.replicate 11 FaceColor.DARK_BROWN)))))))))) := by
  refine ⟨by decide, rfl, ?_⟩
  have h : Full.getSolvedStateColors
      = (Full.createKilominxGeometry.faces.map (fun f => (f.majorFace, f.ring))).map
          (fun pr => Full.colorMap.getD (pr.1 % Full.colorMap.length) FaceColor.WHITE) := by
    simp only [Full.getSolvedStateColors, List.map_map]
    rfl
  rw [h, full_faces_map_pair]
  decide

/-- C10: the simple-model createKilominxGeometry returns 12 degenerate,
identically placed faces: face i carries id i, majorFace i, ring 0,
ringPosition 0, color WHITE, center the origin, normal the y axis, and
empty vertex and neighbor lists. -/
theorem claim_C10 :
    Simple.createKilominxGeometry.faces.length = 12
    ∧ Simple.createKilominxGeometry.faces.map Face.id = List.range 12
    ∧ Simple.createKilominxGeometry.faces.map Face.majorFace = List.range 12
    ∧ Simple.createKilominxGeometry.faces.map Face.ring = List.replicate 12 0
    ∧ Simple.createKilominxGeometry.faces.map Face.ringPosition = List.replicate 12 0
    ∧ Simple.createKilominxGeometry.faces.map Face.color
        = List.replicate 12 FaceColor.WHITE
    ∧ Simple.createKilominxGeometry.faces.map Face.center
        = List.replicate 12 ({ x := 0, y := 0, z := 0 } : Vector3)
    ∧ Simple.createKilominxGeometry.faces.map Face.normal
        = List.replicate 12 ({ x := 0, y := 1, z := 0 } : Vector3)
    ∧ Simple.createKilominxGeometry.faces.map Face.vertices
        = List.replicate 12 ([] : List Vector3)
    ∧ Simple.createKilominxGeometry.faces.map Face.neighbors
        = List.replicate 12 ([] : List ℕ) := by
  refine ⟨simple_faces_length, ?_, ?_, ?_, ?_, ?_, ?_, ?_, ?_, ?_⟩ <;>
    simp [Simple.createKilominxGeometry, List.map_map, Function.comp_def]

/-! ### Vector algebra lemmas -/

section VectorLemmas

open Full

theorem vectorLength_eq_sqrt_dotProduct (v : Vector3) :
    vectorLength v = Real.sqrt (dotProduct v v) := rfl

theorem dotProduct_self_nonneg (v : Vector3) : 0 ≤ dotProduct v v := by
  unfold dotProduct
  nlinarith [mul_self_nonneg v.x, mul_self_nonneg v.y, mul_self_nonneg v.z]

theorem dotProduct_comm (a b : Vector3) : dotProduct a b = dotProduct b a := by
  unfold dotProduct
  ring

theorem dotProduct_crossProduct_left (a b : Vector3) :
    dotProduct (crossProduct a b) a = 0 := by
  unfold dotProduct crossProduct
  ring

theorem dotProduct_crossProduct_right (a b : Vector3) :
    dotProduct (crossProduct a b) b = 0 := by
  unfold dotProduct crossProduct
  ring

theorem crossProduct_lagrange (a b : Vector3) :
    dotProduct (crossProduct a b) (crossProduct a b)
      = dotProduct a a * dotProduct b b - dotProduct a b * dotProduct a b := by
  unfold dotProduct crossProduct
  ring

theorem dotProduct_self_pos (v : Vector3) (hv : v ≠ ⟨0, 0, 0⟩) :
    0 < dotProduct v v := by
  rcases (dotProduct_self_nonneg v).lt_or_eq with h | h
  · exact h
  · exfalso
    apply hv
    have h0 : v.x * v.x + v.y * v.y + v.z * v.z = 0 := by
      have := h.symm
      unfold dotProduct at this
      linarith
    have hx2 : v.x * v.x = 0 := by
      nlinarith [mul_self_nonneg v.x, mul_self_nonneg v.y, mul_self_nonneg v.z]
    have hy2 : v.y * v.y = 0 := by
      nlinarith [mul_self_nonneg v.x, mul_self_nonneg v.y, mul_self_nonneg v.z]
    have hz2 : v.z * v.z = 0 := by
      nlinarith [mul_self_nonneg v.x, mul_self_nonneg v.y, mul_self_nonneg v.z]
    ext
    · exact mul_self_eq_zero.mp hx2
    · exact mul_self_eq_zero.mp hy2
    · exact mul_self_eq_zero.mp hz2

theorem normalizeVector_zero : normalizeVector ⟨0, 0, 0⟩ = ⟨0, 0, 0⟩ := by
  simp [normalizeVector]

theorem dotProduct_normalizeVector_self (u : Vector3) (hu : 0 < dotProduct u u) :
    dotProduct (normalizeVector u) (normalizeVector u) = 1 := by
  have hS : (0 : ℝ) < u.x * u.x + u.y * u.y + u.z * u.z := hu
  have hL : Real.sqrt (u.x * u.x + u.y * u.y + u.z * u.z) ≠ 0 :=
    ne_of_gt (Real.sqrt_pos.mpr hS)
  simp only [normalizeVector]
  rw [if_neg hL]
  simp only [dotProduct]
  rw [div_mul_div_comm, div_mul_div_comm, div_mul_div_comm, div_add_div_same,
    div_add_div_same, Real.mul_self_sqrt (le_of_lt hS), div_self (ne_of_gt hS)]

theorem dotProduct_normalizeVector_eq_zero (u w : Vector3)
    (h : dotProduct u w = 0) : dotProduct (normalizeVector u) w = 0 := by
  simp only [normalizeVector]
  by_cases h0 : Real.sqrt (u.x * u.x + u.y * u.y + u.z * u.z) = 0
  · rw [if_pos h0]
    simp [dotProduct]
  · rw [if_neg h0]
    simp only [dotProduct] at h ⊢
    rw [show u.x / Real.sqrt (u.x * u.x + u.y * u.y + u.z * u.z) * w.x
        + u.y / Real.sqrt (u.x * u.x + u.y * u.y + u.z * u.z) * w.y
        + u.z / Real.sqrt (u.x * u.x + u.y * u.y + u.z * u.z) * w.z
        = (u.x * w.x + u.y * w.y + u.z * w.z)
          / Real.sqrt (u.x * u.x + u.y * u.y + u.z * u.z) from by ring, h, zero_div]

theorem vectorLength_normalizeVector (v : Vector3) (hv : v ≠ ⟨0, 0, 0⟩) :
    vectorLength (normalizeVector v) = 1 := by
  rw [vectorLength_eq_sqrt_dotProduct,
    dotProduct_normalizeVector_self v (dotProduct_self_pos v hv), Real.sqrt_one]

end VectorLemmas

/-- C9: normalizeVector maps the zero vector to the zero vector (a defined
degenerate result rather than an error), and maps every non-zero vector to a
vector of exactly unit length (the float tolerance of the spec is exact in
the real-number model). -/
theorem claim_C9 :
    normalizeVector ⟨0, 0, 0⟩ = ⟨0, 0, 0⟩
    ∧ ∀ v : Vector3, v ≠ ⟨0, 0, 0⟩ → vectorLength (normalizeVector v) = 1 :=
  ⟨normalizeVector_zero, fun v hv => vectorLength_normalizeVector v hv⟩

/-- C9 witness: the non-zero vector (3, 4, 0) normalizes to unit length. -/
theorem claim_C9_witness :
    (⟨3, 4, 0⟩ : Vector3) ≠ ⟨0, 0, 0⟩
    ∧ vectorLength (normalizeVector ⟨3, 4, 0⟩) = 1 := by
  have h : (⟨3, 4, 0⟩ : Vector3) ≠ ⟨0, 0, 0⟩ := by
    intro hEq
    have hx := congrArg Vector3.x hEq
    norm_num at hx
  exact ⟨h, claim_C9.2 ⟨3, 4, 0⟩ h⟩

/-! ### Pentagon geometry lemmas -/

section PentagonLemmas

open Full

theorem dot_combo (c a b m : Vector3) (s t : ℝ) :
    dotProduct (subVectors (addVectors c
        (addVectors (scaleVector a s) (scaleVector b t))) c) m
      = s * dotProduct a m + t * dotProduct b m := by
  simp only [dotProduct, subVectors, addVectors, scaleVector]
  ring

theorem dot_combo2 (c a b : Vector3) (s t s2 t2 : ℝ) :
    dotProduct
        (subVectors (addVectors c
          (addVectors (scaleVector a s) (scaleVector b t))) c)
        (subVectors (addVectors c
          (addVectors (scaleVector a s2) (scaleVector b t2))) c)
      = s * s2 * dotProduct a a + (s * t2 + t * s2) * dotProduct a b
        + t * t2 * dotProduct b b := by
  simp only [dotProduct, subVectors, addVectors, scaleVector]
  ring

theorem trig_norm (θ r : ℝ) :
    Real.cos θ * r * (Real.cos θ * r) * 1
      + (Real.cos θ * r * (Real.sin θ * r) + Real.sin θ * r * (Real.cos θ * r)) * 0
      + Real.sin θ * r * (Real.sin θ * r) * 1 = r ^ 2 := by
  have h := Real.sin_sq_add_cos_sq θ
  linear_combination r ^ 2 * h

theorem trig_consec (θ φ r : ℝ) :
    Real.cos θ * r * (Real.cos φ * r) * 1
      + (Real.cos θ * r * (Real.sin φ * r) + Real.sin θ * r * (Real.cos φ * r)) * 0
      + Real.sin θ * r * (Real.sin φ * r) * 1 = r ^ 2 * Real.cos (φ - θ) := by
  rw [Real.cos_sub]
  ring

theorem pentagonBasisRight_dot_self (n : Vector3) (hnn : dotProduct n n = 1) :
    dotProduct (pentagonBasisRight n) (pentagonBasisRight n) = 1 := by
  unfold pentagonBasisRight
  apply dotProduct_normalizeVector_self
  have hnn1 : n.x * n.x + n.y * n.y + n.z * n.z = 1 := hnn
  by_cases hy : |n.y| > 0.9
  · rw [if_pos hy]
    simp only [dotProduct, crossProduct, createVector3]
    nlinarith [abs_nonneg n.y, sq_abs n.y, mul_self_nonneg n.z, hy]
  · rw [if_neg hy]
    push_neg at hy
    simp only [dotProduct, crossProduct, createVector3]
    nlinarith [abs_nonneg n.y, sq_abs n.y, hy, hnn1]

theorem pentagonBasisRight_orth (n : Vector3) :
    dotProduct (pentagonBasisRight n) n = 0 := by
  unfold pentagonBasisRight
  exact dotProduct_normalizeVector_eq_zero _ _ (dotProduct_crossProduct_right _ n)

theorem pentagonBasisForward_dot_self (n : Vector3) (hnn : dotProduct n n = 1) :
    dotProduct (pentagonBasisForward n) (pentagonBasisForward n) = 1 := by
  unfold pentagonBasisForward
  apply dotProduct_normalizeVector_self
  rw [crossProduct_lagrange, hnn, pentagonBasisRight_dot_self n hnn,
    dotProduct_comm n (pentagonBasisRight n), pentagonBasisRight_orth n]
  norm_num

theorem pentagonBasisForward_orth (n : Vector3) :
    dotProduct (pentagonBasisForward n) n = 0 := by
  unfold pentagonBasisForward
  exact dotProduct_normalizeVector_eq_zero _ _ (dotProduct_crossProduct_left n _)

theorem pentagonBasisForward_orth_right (n : Vector3) :
    dotProduct (pentagonBasisForward n) (pentagonBasisRight n) = 0 := by
  unfold pentagonBasisForward
  exact dotProduct_normalizeVector_eq_zero _ _ (dotProduct_crossProduct_right n _)

theorem generatePentagonVertices_explicit (c n : Vector3) (r : ℝ) :
    generatePentagonVertices c n r
      = [pentagonPoint c n r 0, pentagonPoint c n r 1, pentagonPoint c n r 2,
         pentagonPoint c n r 3, pentagonPoint c n r 4] := rfl

theorem pentagonPoint_coplanar (c n : Vector3) (r : ℝ) (i : ℕ) :
    dotProduct (subVectors (pentagonPoint c n r i) c) n = 0 := by
  unfold pentagonPoint
  rw [dot_combo, pentagonBasisRight_orth, pentagonBasisForward_orth]
  ring

theorem pentagonPoint_dist (c n : Vector3) (r : ℝ) (i : ℕ) (hr : 0 ≤ r)
    (hnn : dotProduct n n = 1) :
    vectorLength (subVectors (pentagonPoint c n r i) c) = r := by
  have hab : dotProduct (pentagonBasisRight n) (pentagonBasisForward n) = 0 := by
    rw [dotProduct_comm]
    exact pentagonBasisForward_orth_right n
  rw [vectorLength_eq_sqrt_dotProduct]
  unfold pentagonPoint
  rw [dot_combo2, pentagonBasisRight_dot_self n hnn,
    pentagonBasisForward_dot_self n hnn, hab, trig_norm, Real.sqrt_sq hr]

theorem pentagonPoint_consec (c n : Vector3) (r : ℝ) (i : ℕ)
    (hnn : dotProduct n n = 1) :
    dotProduct (subVectors (pentagonPoint c n r i) c)
        (subVectors (pentagonPoint c n r (i + 1)) c)
      = r ^ 2 * Real.cos (2 * Real.pi / 5) := by
  have hab : dotProduct (pentagonBasisRight n) (pentagonBasisForward n) = 0 := by
    rw [dotProduct_comm]
    exact pentagonBasisForward_orth_right n
  unfold pentagonPoint
  rw [dot_combo2, pentagonBasisRight_dot_self n hnn,
    pentagonBasisForward_dot_self n hnn, hab, trig_consec]
  rw [show (((i + 1 : ℕ) : ℝ) * 2 * Real.pi) / 5 - ((i : ℝ) * 2 * Real.pi) / 5
      = 2 * Real.pi / 5 from by push_cast; ring]

end PentagonLemmas

/-- C5: for every center, every unit normal and every positive radius,
Full.generatePentagonVertices returns exactly 5 points; each lies in the plane
through the center orthogonal to the normal (dot product 0 with the normal),
each is at exact distance radius from the center, and each consecutive pair
of offset vectors has inner product radius^2 * cos(72 degrees) - i.e. a
consecutive angular separation of 72 degrees in that plane. -/
theorem claim_C5 (center normal : Vector3) (radius : ℝ)
    (hn : vectorLength normal = 1) (hr : 0 < radius) :
    (Full.generatePentagonVertices center normal radius).length = 5
    ∧ (Full.generatePentagonVertices center normal radius).map
        (fun v => dotProduct (subVectors v center) normal) = List.replicate 5 0
    ∧ (Full.generatePentagonVertices center normal radius).map
        (fun v => vectorLength (subVectors v center)) = List.replicate 5 radius
    ∧ ((Full.generatePentagonVertices center normal radius).zip
          (Full.generatePentagonVertices center normal radius).tail).map
        (fun q => dotProduct (subVectors q.1 center) (subVectors q.2 center))
      = List.replicate 4 (radius ^ 2 * Real.cos (2 * Real.pi / 5)) := by
  have hnn : dotProduct normal normal = 1 := by
    have h0 : 0 ≤ dotProduct normal normal := dotProduct_self_nonneg normal
    have h1 : Real.sqrt (dotProduct normal normal) = 1 := hn
    calc dotProduct normal normal
        = Real.sqrt (dotProduct normal normal)
            * Real.sqrt (dotProduct normal normal) := (Real.mul_self_sqrt h0).symm
      _ = 1 * 1 := by rw [h1]
      _ = 1 := one_mul 1
  refine ⟨generatePentagonVertices_length center normal radius, ?_, ?_, ?_⟩
  · rw [generatePentagonVertices_explicit]
    simp only [List.map_cons, List.map_nil, pentagonPoint_coplanar]
    rfl
  · have hd : ∀ i : ℕ,
        vectorLength (subVectors (Full.pentagonPoint center normal radius i) center)
          = radius := fun i => pentagonPoint_dist center normal radius i hr.le hnn
    rw [generatePentagonVertices_explicit]
    simp only [List.map_cons, List.map_nil, hd]
    rfl
  · have h01 := pentagonPoint_consec center normal radius 0 hnn
    have h12 := pentagonPoint_consec center normal radius 1 hnn
    have h23 := pentagonPoint_consec center normal radius 2 hnn
    have h34 := pentagonPoint_consec center normal radius 3 hnn
    norm_num at h01 h12 h23 h34
    rw [generatePentagonVertices_explicit]
    simp only [List.tail_cons, List.zip_cons_cons, List.zip_nil_right,
      List.map_cons, List.map_nil]
    rw [h01, h12, h23, h34]
    rfl

/-- C5 witness: the theorem instantiated at center the origin, normal the
unit z axis and radius 1. -/
theorem claim_C5_witness :
    vectorLength ⟨0, 0, 1⟩ = 1 ∧ (0 : ℝ) < 1
    ∧ ((Full.generatePentagonVertices ⟨0, 0, 0⟩ ⟨0, 0, 1⟩ 1).length = 5
      ∧ (Full.generatePentagonVertices ⟨0, 0, 0⟩ ⟨0, 0, 1⟩ 1).map
          (fun v => dotProduct (subVectors v ⟨0, 0, 0⟩) ⟨0, 0, 1⟩)
        = List.replicate 5 0
      ∧ (Full.generatePentagonVertices ⟨0, 0, 0⟩ ⟨0, 0, 1⟩ 1).map
          (fun v => vectorLength (subVectors v ⟨0, 0, 0⟩))
        = List.replicate 5 1
      ∧ ((Full.generatePentagonVertices ⟨0, 0, 0⟩ ⟨0, 0, 1⟩ 1).zip
            (Full.generatePentagonVertices ⟨0, 0, 0⟩ ⟨0, 0, 1⟩ 1).tail).map
          (fun q => dotProduct (subVectors q.1 ⟨0, 0, 0⟩) (subVectors q.2 ⟨0, 0, 0⟩))
        = List.replicate 4 ((1 : ℝ) ^ 2 * Real.cos (2 * Real.pi / 5))) := by
  have h1 : vectorLength (⟨0, 0, 1⟩ : Vector3) = 1 := by
    show Real.sqrt ((0 : ℝ) * 0 + 0 * 0 + 1 * 1) = 1
    rw [show (0 : ℝ) * 0 + 0 * 0 + 1 * 1 = 1 from by norm_num, Real.sqrt_one]
  exact ⟨h1, by norm_num, claim_C5 ⟨0, 0, 0⟩ ⟨0, 0, 1⟩ 1 h1 (by norm_num)⟩

/-! ### Neighbor-relation lemmas -/

section NeighborLemmas

open Full

theorem centerDistance_comm (a b : Face) :
    centerDistance a b = centerDistance b a := by
  unfold centerDistance
  congr 1
  ring

theorem calculateNeighbors_getElem? (l : List Face) (i : ℕ) :
    (calculateNeighbors l)[i]?
      = (l[i]?).map (fun f => { f with neighbors := neighborIds l i f }) := by
  unfold calculateNeighbors
  rw [List.getElem?_map, List.getElem?_enum]
  cases h : l[i]? <;> rfl

theorem full_faces_getD (i : ℕ) (hi : i < generateKilominxFaces.length) :
    Full.createKilominxGeometry.faces.getD i defaultFace
      = { generateKilominxFaces.getD i defaultFace with
          neighbors := neighborIds generateKilominxFaces i
            (generateKilominxFaces.getD i defaultFace) } := by
  have hface : Full.createKilominxGeometry.faces
      = calculateNeighbors generateKilominxFaces := rfl
  have hsome : generateKilominxFaces[i]?
      = some (generateKilominxFaces.getD i defaultFace) := by
    rw [List.getElem?_eq_getElem hi, List.getD_eq_getElem?_getD,
      List.getElem?_eq_getElem hi]
    rfl
  rw [hface, List.getD_eq_getElem?_getD, calculateNeighbors_getElem?, hsome]
  rfl

theorem getD_map_id_range (l : List Face)
    (hl : l.map Face.id = List.range l.length)
    (i : ℕ) (hi : i < l.length) : (l.getD i defaultFace).id = i := by
  have h1 : (l.map Face.id)[i]? = some i := by
    rw [hl, List.getElem?_range hi]
  rw [List.getElem?_map] at h1
  have h2 : l[i]? = some (l.getD i defaultFace) := by
    rw [List.getElem?_eq_getElem hi, List.getD_eq_getElem?_getD,
      List.getElem?_eq_getElem hi]
    rfl
  rw [h2] at h1
  simpa using h1

theorem full_getD_id (i : ℕ)
    (hi : i < Full.createKilominxGeometry.faces.length) :
    (Full.createKilominxGeometry.faces.getD i defaultFace).id = i := by
  apply getD_map_id_range
  · rw [full_faces_map_id, full_faces_length]
  · exact hi

theorem mem_neighborIds_iff (l : List Face) (i j : ℕ) (f : Face)
    (hj : j < l.length) :
    j ∈ neighborIds l i f
      ↔ (¬ i = j ∧ centerDistance f (l.getD j defaultFace) < 1.5) := by
  unfold neighborIds
  rw [List.mem_map]
  constructor
  · rintro ⟨q, hq, rfl⟩
    rw [List.mem_filter] at hq
    obtain ⟨hqe, hqc⟩ := hq
    rw [decide_eq_true_iff] at hqc
    have hqlt : q.1 < l.length := List.fst_lt_of_mem_enum hqe
    have hq2 := List.snd_eq_of_mem_enum hqe
    have hgd : l.getD q.1 defaultFace = q.2 := by
      rw [List.getD_eq_getElem?_getD, List.getElem?_eq_getElem hqlt]
      exact hq2.symm
    rw [hgd]
    exact hqc
  · rintro ⟨hne, hdist⟩
    refine ⟨(j, l.getD j defaultFace), ?_, rfl⟩
    rw [List.mem_filter]
    constructor
    · rw [List.mk_mem_enum_iff_getElem?, List.getElem?_eq_getElem hj,
        List.getD_eq_getElem?_getD, List.getElem?_eq_getElem hj]
      rfl
    · rw [decide_eq_true_iff]
      exact ⟨hne, hdist⟩

end NeighborLemmas

/-- C6: in the full-model geometry the neighbors relation is symmetric (face
B's id lies in face A's neighbor list exactly when face A's id lies in face
B's) and irreflexive (no face's id occurs in its own neighbor list). -/
theorem claim_C6 (i j : ℕ)
    (hi : i < Full.createKilominxGeometry.faces.length)
    (hj : j < Full.createKilominxGeometry.faces.length) :
    (((Full.createKilominxGeometry.faces.getD j defaultFace).id
        ∈ (Full.createKilominxGeometry.faces.getD i defaultFace).neighbors)
      ↔ ((Full.createKilominxGeometry.faces.getD i defaultFace).id
        ∈ (Full.createKilominxGeometry.faces.getD j defaultFace).neighbors))
    ∧ (Full.createKilominxGeometry.faces.getD i defaultFace).id
        ∉ (Full.createKilominxGeometry.faces.getD i defaultFace).neighbors := by
  have hlen : Full.createKilominxGeometry.faces.length
      = Full.generateKilominxFaces.length := by
    rw [full_faces_length, generateKilominxFaces_length]
  have hi2 : i < Full.generateKilominxFaces.length := by rw [← hlen]; exact hi
  have hj2 : j < Full.generateKilominxFaces.length := by rw [← hlen]; exact hj
  have hidi := full_getD_id i hi
  have hidj := full_getD_id j hj
  rw [hidi, hidj, full_faces_getD i hi2, full_faces_getD j hj2]
  dsimp only
  constructor
  · rw [mem_neighborIds_iff _ _ _ _ hj2, mem_neighborIds_iff _ _ _ _ hi2]
    constructor
    · rintro ⟨hne, hd⟩
      refine ⟨fun h => hne h.symm, ?_⟩
      rw [centerDistance_comm]
      exact hd
    · rintro ⟨hne, hd⟩
      refine ⟨fun h => hne h.symm, ?_⟩
      rw [centerDistance_comm]
      exact hd
  · rw [mem_neighborIds_iff _ _ _ _ hi2]
    rintro ⟨hne, _⟩
    exact hne rfl

/-- C6 witness: the theorem instantiated at the concrete face positions 0
and 1 of the generated geometry. -/
theorem claim_C6_witness :
    0 < Full.createKilominxGeometry.faces.length
    ∧ 1 < Full.createKilominxGeometry.faces.length
    ∧ ((((Full.createKilominxGeometry.faces.getD 1 defaultFace).id
          ∈ (Full.createKilominxGeometry.faces.getD 0 defaultFace).neighbors)
        ↔ ((Full.createKilominxGeometry.faces.getD 0 defaultFace).id
          ∈ (Full.createKilominxGeometry.faces.getD 1 defaultFace).neighbors))
      ∧ (Full.createKilominxGeometry.faces.getD 0 defaultFace).id
          ∉ (Full.createKilominxGeometry.faces.getD 0 defaultFace).neighbors) := by
  have h0 : 0 < Full.createKilominxGeometry.faces.length := by
    rw [full_faces_length]
    norm_num
  have h1 : 1 < Full.createKilominxGeometry.faces.length := by
    rw [full_faces_length]
    norm_num
  exact ⟨h0, h1, claim_C6 0 1 h0 h1⟩

end KilominxSolver
